import Mathlib

/-!
Shallow embedding of the `videoReference` drag-and-drop installer and of the
video-reference creation module, translated from the Python sources
`videoReferenceDragDropInstall.py` and `videoReference/scripts/videoReference.py`.

Host (Maya) calls are modelled as effects recorded in an explicit world state:
the file system is a list of existing path entries, modal dialogs consume a
queue of user answers (an empty queue models dismissal, which Maya reports as
the dialog's cancel button), and every observable host mutation is appended to
an effect trace.
-/

namespace Installer

/-- Observable host side effects of the installer
(`VideoReferenceInstaller` in `videoReferenceDragDropInstall.py`). -/
inductive Effect where
  /-- `cmds.confirmDialog` was shown with the given message and button list. -/
  | dialogShown (message : String) (buttons : List String)
  /-- `cmds.SaveScene()` was invoked. -/
  | sceneSaved
  /-- `cmds.file(new=True, force=True)` forced a new empty scene. -/
  | newScene
  /-- `cmds.unloadPlugin(name, force=True)` was invoked. -/
  | unloadPlugin (name : String)
  /-- A file or directory was removed (`QFile.remove` / `QDir.removeRecursively`). -/
  | removePath (path : String)
  /-- A source entry was copied to a destination entry (`QFile.copy`). -/
  | copyEntry (source : String) (destination : String)
  /-- `mayapy -m pip install` was spawned for the given packages. -/
  | pipInstall (packages : String)
  /-- `cmds.quit()` restarted Maya. -/
  | quit
  deriving Repr, DecidableEq

/-- Environment of one installer run: Maya version data and the two path roots
from which every path in the source is built. -/
structure InstallerCfg where
  mayaVersion : Nat
  mayaPythonVersion : Nat
  draggedFromPath : String
  mayaAppDir : String
  deriving Repr, DecidableEq

/-- Mutable world the installer acts on.  `fs` is the set of existing
file-system entries; `dialogAnswers` is the queue of button labels the user
answers with; `effects` is the trace of host mutations performed so far. -/
structure InstallWorld where
  fs : List String
  pluginLoaded : Bool
  sceneModified : Bool
  unloadSucceeds : Bool
  depInstallOk : Bool
  dialogAnswers : List String
  effects : List Effect
  deriving Repr, DecidableEq

/-- `self.moduleName` -/
def moduleName : String := "videoReference"

/-- `self.dependencies` -/
def dependencies : String := "opencv-python"

/-- `self.defaultModulesPath` -/
def defaultModulesPath (cfg : InstallerCfg) : String :=
  cfg.mayaAppDir ++ "/modules"

/-- `self.installationFiles` -/
def installationFiles (cfg : InstallerCfg) : List String :=
  [ cfg.draggedFromPath ++ "/" ++ moduleName ++ "/scripts/" ++ moduleName ++ ".py",
    cfg.draggedFromPath ++ "/" ++ moduleName ++ "/scripts/userSetup.py",
    cfg.draggedFromPath ++ "/" ++ moduleName ++ "/icons/" ++ moduleName ++ ".png",
    cfg.draggedFromPath ++ "/" ++ moduleName ++ ".mod" ]

/-- `self.existingFiles`: the destination module directory and `.mod` file. -/
def existingFiles (cfg : InstallerCfg) : List String :=
  [ defaultModulesPath cfg ++ "/" ++ moduleName,
    defaultModulesPath cfg ++ "/" ++ moduleName ++ ".mod" ]

/-- Whether `p` followed by a path separator is a prefix of `f`, that is,
whether the entry `f` lies strictly below the directory `p`. -/
def isUnderDir (p f : String) : Bool :=
  (p ++ "/").data.isPrefixOf f.data

/-- `QFileInfo(path).exists()`: a path exists when it is an entry of the file
system or when some entry lies strictly below it (so a directory exists as
soon as one of its files does). -/
def pathExists (fs : List String) (path : String) : Bool :=
  fs.any (fun f => f == path || isUnderDir path f)

/-- Remove a path together with everything below it
(`QFile.remove` / `QDir(path).removeRecursively()`). -/
def removeEntry (fs : List String) (path : String) : List String :=
  fs.filter (fun f => !(f == path || isUnderDir path f))

/-- Record a new file-system entry (the destination of a copy). -/
def insertEntry (fs : List String) (path : String) : List String :=
  if fs.contains path then fs else fs ++ [path]

/-- `createDialog`: shows a confirm dialog and returns the user's answer.
Dismissing the dialog yields the cancel button, exactly as
`dismissString=cancelButton` does in the source. -/
def createDialog (message : String) (buttons : List String) (cancelButton : String)
    (w : InstallWorld) : String × InstallWorld :=
  let w := { w with effects := w.effects ++ [Effect.dialogShown message buttons] }
  match w.dialogAnswers with
  | [] => (cancelButton, w)
  | a :: rest => (a, { w with dialogAnswers := rest })

/-- `validatePythonVersion` with its default `requiredVersion=3`. -/
def validatePythonVersion (cfg : InstallerCfg) : Bool :=
  3 ≤ cfg.mayaPythonVersion

/-- `validateInstallationFiles`: every manifest entry must exist. -/
def validateInstallationFiles (cfg : InstallerCfg) (w : InstallWorld) : Bool :=
  (installationFiles cfg).all (fun file => pathExists w.fs file)

/-- `unloadPlugin` with its default `force=True`: forcing first opens a new
clean scene, then `cmds.unloadPlugin` runs (its success is part of the world). -/
def unloadPlugin (w : InstallWorld) (force : Bool := true) : InstallWorld :=
  let w :=
    if force then
      { w with effects := w.effects ++ [Effect.newScene], sceneModified := false }
    else w
  { w with effects := w.effects ++ [Effect.unloadPlugin moduleName],
           pluginLoaded := if w.unloadSucceeds then false else w.pluginLoaded }

/-- Body of the `removeExistingVersion` loop: remove one path when it exists. -/
def removeIfExists (path : String) (w : InstallWorld) : InstallWorld :=
  if pathExists w.fs path then
    { w with fs := removeEntry w.fs path,
             effects := w.effects ++ [Effect.removePath path] }
  else w

/-- `removeExistingVersion`: removes each entry of `existingFiles` that exists. -/
def removeExistingVersion (cfg : InstallerCfg) (w : InstallWorld) : InstallWorld :=
  (existingFiles cfg).foldl (fun w path => removeIfExists path w) w

/-- One `copy` call of the source, modelled at the granularity of the
top-level destination entry it creates: the copy is gated on the existence of
the source (`validateFileInfo`) and records the destination entry. -/
def copyOp (source : String) (destEntry : String) (w : InstallWorld) : InstallWorld :=
  if pathExists w.fs source then
    { w with fs := insertEntry w.fs destEntry,
             effects := w.effects ++ [Effect.copyEntry source destEntry] }
  else w

/-- `copyInstallationFiles`: first the `.mod` file, then the module folder. -/
def copyInstallationFiles (cfg : InstallerCfg) (w : InstallWorld) : InstallWorld :=
  let w := copyOp (cfg.draggedFromPath ++ "/" ++ moduleName ++ ".mod")
                  (defaultModulesPath cfg ++ "/" ++ moduleName ++ ".mod") w
  copyOp (cfg.draggedFromPath ++ "/" ++ moduleName)
         (defaultModulesPath cfg ++ "/" ++ moduleName) w

/-- `installDependencies`: spawns pip and reports whether it succeeded. -/
def installDependencies (w : InstallWorld) : Bool × InstallWorld :=
  let w := { w with effects := w.effects ++ [Effect.pipInstall dependencies] }
  (w.depInstallOk, w)

/-- Message of the save-scene prompt inside `setupPlugin`. -/
def saveSceneMsg : String :=
  "The installer has detected that the " ++ moduleName ++
  " is already installed and loaded. In order to continue a new clean must be opened. " ++
  "Do you want to save the current scene?"

/-- `setupPlugin`: unload an already-loaded plugin; when the scene is modified,
first ask whether to save it (cancel button Later), then unload regardless of
the answer; fail only when the plugin is still loaded afterwards. -/
def setupPlugin (w : InstallWorld) : Bool × InstallWorld :=
  if w.pluginLoaded then
    let w :=
      if w.sceneModified then
        let (input, w) := createDialog saveSceneMsg ["Save", "Don't Save"] "Later" w
        if input == "Save" then
          { w with effects := w.effects ++ [Effect.sceneSaved], sceneModified := false }
        else w
      else w
    let w := unloadPlugin w
    if !w.pluginLoaded then (true, w) else (false, w)
  else (true, w)

/-- Message of the install confirmation dialog. -/
def installConfirmMsg (cfg : InstallerCfg) : String :=
  "This will install " ++ moduleName ++ " in: " ++ defaultModulesPath cfg

/-- Message of the restart prompt shown after a successful installation. -/
def restartMsg : String :=
  "Installation complete - please restart Maya!"

/-- The tail of `install` after a successful dependency step: ask whether to
restart Maya and quit when the user agrees; either way report success. -/
def askRestart (w : InstallWorld) : Bool × InstallWorld :=
  let (input, w) := createDialog restartMsg ["Restart", "Later"] "Later" w
  if input == "Restart" then
    (true, { w with effects := w.effects ++ [Effect.quit] })
  else (true, w)

/-- `install` of `VideoReferenceInstaller`: version gate (Maya 2022 only),
manifest validation, confirmation dialog, plugin setup (its result is ignored,
as in the source), removal of the previous version, copy, dependency install
with rollback on failure, restart prompt. -/
def install (cfg : InstallerCfg) (w : InstallWorld) : Bool × InstallWorld :=
  if cfg.mayaVersion == 2022 && !validatePythonVersion cfg then (false, w)
  else if !validateInstallationFiles cfg w then (false, w)
  else
    let (input, w) := createDialog (installConfirmMsg cfg) ["Install", "Cancel"] "Cancel" w
    if input == "Install" then
      let (_, w) := setupPlugin w
      let w := removeExistingVersion cfg w
      let w := copyInstallationFiles cfg w
      if !(dependencies == "") then
        let (ok, w) := installDependencies w
        if !ok then
          let w := removeExistingVersion cfg w
          (false, w)
        else askRestart w
      else askRestart w
    else (false, w)

end Installer

namespace VideoReference

/-- Observable host side effects of the `VideoReference` module
(`videoReference/scripts/videoReference.py`). -/
inductive SceneEffect where
  /-- `cmds.imagePlane(name=.., lookThrough=.., maintainRatio=True, width=.., height=..)`. -/
  | imagePlaneCreated (name : String) (lookThrough : String) (width : Rat) (height : Rat)
  /-- `cmds.setAttr` with an integer value. -/
  | attrSetInt (node : String) (attr : String) (value : Int)
  /-- `cmds.setAttr` with a boolean value. -/
  | attrSetBool (node : String) (attr : String) (value : Bool)
  /-- `cmds.setAttr .. type="string"`. -/
  | attrSetString (node : String) (attr : String) (value : String)
  /-- `cmds.delete(.., inputConnectionsAndNodes=True)` on an attribute. -/
  | inputConnectionsDeleted (node : String) (attr : String)
  /-- `cmds.setKeyframe(node, attribute=.., time=.., value=.., inTangentType=.., outTangentType=..)`. -/
  | keyframeSet (node : String) (attr : String) (time : Rat) (value : Rat)
      (inTangent : String) (outTangent : String)
  /-- `cmds.timeEditorClip(clipName, .., startTime=.., duration=.., track=..)`. -/
  | timeEditorClipCreated (clipName : String) (startTime : Rat) (duration : Rat) (track : String)
  /-- `cmds.timeEditorComposition("Composition1", createTrack=True)`. -/
  | compositionCreated (name : String)
  /-- `cmds.TimeEditorWindow()`. -/
  | timeEditorWindowOpened
  /-- `cmds.parent(child, parent)`. -/
  | parented (child : String) (parent : String)
  /-- The DG modifier broke the incoming connection of the visibility plug. -/
  | connectionBroken
  /-- The camera visibility plug was set. -/
  | visibilitySet (value : Bool)
  /-- `cmds.confirmDialog` was shown with the given button list. -/
  | sceneDialogShown (buttons : List String)
  /-- `cmds.select(clear=True)`. -/
  | selectionCleared
  deriving Repr, DecidableEq

/-- Local transform data of a scene transform node. -/
structure SceneTransform where
  translate : Rat × Rat × Rat
  rotate : Rat × Rat × Rat
  scaling : Rat × Rat × Rat
  parent : String
  deriving Repr, DecidableEq

/-- A freshly created node: identity transform parented under the world. -/
def newTransform : SceneTransform :=
  { translate := (0, 0, 0), rotate := (0, 0, 0), scaling := (1, 1, 1), parent := "world" }

/-- World the `VideoReference` class methods act on.  The host inputs
(picker result, active camera, per-file video metadata) are fields; the class
attributes `_cameraTransform`, `_nearClip` and `_timeEditorComposition` start
as `none`, exactly like their `None` initialisers in the source. -/
structure SceneWorld where
  /-- Result of `cmds.fileDialog2` (`none` models a cancelled picker). -/
  pickedVideoPaths : Option (List String)
  /-- Name of the transform of the active viewport camera. -/
  activeCamera : String
  cameraVisible : Bool
  visibilityLocked : Bool
  visibilityConnected : Bool
  /-- `nearClipPlane` attribute of the active camera. -/
  nearClipAttr : Rat
  /-- `cmds.currentTime(query=True)`. -/
  currentTime : Rat
  /-- `cv2.CAP_PROP_FRAME_WIDTH` per video path. -/
  videoWidth : String → Nat
  /-- `cv2.CAP_PROP_FRAME_HEIGHT` per video path. -/
  videoHeight : String → Nat
  /-- `cv2.CAP_PROP_FRAME_COUNT` per video path. -/
  videoFrames : String → Nat
  /-- Whether `cmds.ls(type="timeEditorTracks")` is non-empty. -/
  hasTimeEditorTracks : Bool
  /-- The composition `cmds.timeEditorComposition(query=True, active=True)` reports. -/
  activeComposition : String
  dialogAnswers : List String
  /-- Transform nodes of the scene, keyed by name. -/
  transforms : List (String × SceneTransform)
  /-- The current selection (`cmds.ls(selection=True)`). -/
  selection : List String
  effects : List SceneEffect
  /-- Class attribute `_cameraTransform`. -/
  cameraTransform : Option String
  /-- Class attribute `_nearClip`. -/
  nearClip : Option Rat
  /-- Class attribute `_timeEditorComposition`. -/
  timeEditorComposition : Option String

/-- `unhideCamera`: when the visibility plug is off or connected, unlock it if
locked, ask whether to break an incoming connection (cancel button
Don't Break), and force visibility on either way. -/
def unhideCamera (w : SceneWorld) : Bool × SceneWorld :=
  if w.cameraVisible == false || w.visibilityConnected then
    let w := if w.visibilityLocked then { w with visibilityLocked := false } else w
    let w :=
      if w.visibilityConnected then
        let w := { w with effects := w.effects ++
          [SceneEffect.sceneDialogShown ["Break", "Don't Break"]] }
        let (input, w) :=
          match w.dialogAnswers with
          | [] => ("Don't Break", w)
          | a :: rest => (a, { w with dialogAnswers := rest })
        if input == "Break" then
          { w with visibilityConnected := false,
                   effects := w.effects ++ [SceneEffect.connectionBroken] }
        else w
      else w
    (true, { w with cameraVisible := true,
                    effects := w.effects ++ [SceneEffect.visibilitySet true] })
  else (false, w)

/-- `setupCamera`: resolve the active viewport camera into `_cameraTransform`
and `_nearClip`, then make sure it is visible. -/
def setupCamera (w : SceneWorld) : SceneWorld :=
  let w := { w with cameraTransform := some w.activeCamera,
                    nearClip := some w.nearClipAttr }
  (unhideCamera w).2

/-- `setupTimeEditor`: create `Composition1` when no time-editor track exists,
then record the active composition in `_timeEditorComposition`. -/
def setupTimeEditor (w : SceneWorld) : SceneWorld :=
  let w :=
    if !w.hasTimeEditorTracks then
      { w with hasTimeEditorTracks := true,
               activeComposition := "Composition1",
               effects := w.effects ++ [SceneEffect.compositionCreated "Composition1"] }
    else w
  { w with timeEditorComposition := some w.activeComposition }

/-- `createVideoPlane`: create the image plane (looking through the camera
named `persp` as hard-coded in the source), select it, and configure it for
per-frame lookup.  Maya names the created transform after `name`; the shape is
renamed to that name suffixed with `Shape`. -/
def createVideoPlane (name : String) (path : String) (width height duration : Nat)
    (w : SceneWorld) : String × String × SceneWorld :=
  let videoTransform := name
  let videoShape := videoTransform ++ "Shape"
  let w := { w with
    transforms := w.transforms ++ [(videoTransform, newTransform)],
    selection := [videoTransform],
    effects := w.effects ++
      [ SceneEffect.imagePlaneCreated name "persp" ((width : Rat) * 0.1) ((height : Rat) * 0.1),
        SceneEffect.attrSetInt videoShape "type" 2,
        SceneEffect.attrSetInt videoShape "textureFilter" 1,
        SceneEffect.attrSetBool videoShape "useFrameExtension" true,
        SceneEffect.attrSetString videoShape "imageName" path,
        SceneEffect.inputConnectionsDeleted videoShape "frameExtension",
        SceneEffect.attrSetInt videoShape "frameCache" (duration : Int) ] }
  (videoTransform, videoShape, w)

/-- `keyVideoPlane`: one `setKeyframe` call per frame in `[startFrame, endFrame]`,
keying `frameExtension` at time `frame` with value `frame` and linear tangents. -/
def keyVideoPlane (videoShape : String) (startFrame endFrame : Rat)
    (w : SceneWorld) : SceneWorld :=
  [startFrame, endFrame].foldl
    (fun w frame =>
      { w with effects := w.effects ++
          [SceneEffect.keyframeSet videoShape "frameExtension" frame frame "linear" "linear"] })
    w

/-- `createTimeEditorClip`: wrap the node's animation into a clip named
`name ++ "_animClip"` on track `-1` of the active composition. -/
def createTimeEditorClip (name : String) (startFrame endFrame : Rat)
    (w : SceneWorld) : SceneWorld :=
  { w with effects := w.effects ++
      [SceneEffect.timeEditorClipCreated (name ++ "_animClip") startFrame endFrame
        ((w.timeEditorComposition.getD "") ++ ":-1")] }

/-- Apply `f` to a keyed transform entry when its key satisfies `c`. -/
def applyIf (c : String → Bool) (f : SceneTransform → SceneTransform)
    (p : String × SceneTransform) : String × SceneTransform :=
  if c p.1 then (p.1, f p.2) else p

/-- Apply an update to every transform entry with the given name. -/
def updateTransform (name : String) (f : SceneTransform → SceneTransform)
    (w : SceneWorld) : SceneWorld :=
  { w with transforms := w.transforms.map (applyIf (fun n => n == name) f) }

/-- `attachToCamera`: parent the node under `_cameraTransform`, zero its
translate and rotate channels, move it back along Z by `nearClip + 1` in
object space (the rotation was just zeroed, so this adds to the local
translate), and scale the current selection uniformly. -/
def attachToCamera (videoTransform : String) (w : SceneWorld)
    (scale : Rat := 0.0025) : SceneWorld :=
  let cam := w.cameraTransform.getD ""
  let w := updateTransform videoTransform (fun t => { t with parent := cam }) w
  let w := { w with effects := w.effects ++ [SceneEffect.parented videoTransform cam] }
  let w := updateTransform videoTransform
    (fun t => { t with translate := (0, 0, 0), rotate := (0, 0, 0) }) w
  let nc := w.nearClip.getD 0
  let w := updateTransform videoTransform
    (fun t => { t with translate := (t.translate.1, t.translate.2.1, t.translate.2.2 + (-(nc + 1))) }) w
  let scaled := w.transforms.map
    (applyIf (fun n => w.selection.contains n) (fun t => { t with scaling := (scale, scale, scale) }))
  { w with transforms := scaled }

/-- `path.split("/")[-1].split(".")[0]`: the characters after the last path
separator and before the first following dot. -/
def videoBaseName (path : String) : String :=
  String.mk
    ((path.data.foldl (fun acc c => if c == '/' then [] else acc ++ [c]) []).takeWhile
      (fun c => !(c == '.')))

/-- Body of the `for path in videoPaths` loop of `doIt` (lines 260-275 of the
source): read the metadata, create the plane, key it (from frame 1 when a
time-editor clip is requested, from the current frame otherwise), optionally
create the clip, optionally attach the plane to the camera. -/
def processVideoPath (attachCam : Bool) (animClip : Bool) (currentFrame : Rat)
    (path : String) (w : SceneWorld) : SceneWorld :=
  let video := videoBaseName path
  let width := w.videoWidth path
  let height := w.videoHeight path
  let duration := w.videoFrames path
  let (videoTransform, videoShape, w) := createVideoPlane video path width height duration w
  let w :=
    if animClip then
      let w := keyVideoPlane videoShape 1 (duration : Rat) w
      createTimeEditorClip videoTransform currentFrame (duration : Rat) w
    else
      keyVideoPlane videoShape currentFrame (duration : Rat) w
  if attachCam then attachToCamera videoTransform w else w

/-- `doIt`: open the picker, and, when files were chosen, set up the camera,
optionally the time editor, process every file and clear the selection.
A cancelled or empty picker aborts with no host mutation. -/
def doIt (w : SceneWorld) (attachCam : Bool := true) (animClip : Bool := true)
    (openTimeEditor : Bool := true) : Bool × SceneWorld :=
  let videoPaths := w.pickedVideoPaths.getD []
  if videoPaths.isEmpty then (false, w)
  else
    let w := setupCamera w
    let currentFrame := w.currentTime
    let w :=
      if animClip then
        let w := setupTimeEditor w
        if openTimeEditor then
          { w with effects := w.effects ++ [SceneEffect.timeEditorWindowOpened] }
        else w
      else w
    let w := videoPaths.foldl (fun w path => processVideoPath attachCam animClip currentFrame path w) w
    (true, { w with selection := [],
                    effects := w.effects ++ [SceneEffect.selectionCleared] })

end VideoReference

namespace VideoReference

/-- State the option-resolution code acts on: for each of the three options,
whether its `checkBoxGrp` widget exists and its checked value, plus the three
persisted `optionVar` integers (Maya reports `0` for an unset variable). -/
structure OptionState where
  attachWidgetExists : Bool
  attachWidgetValue : Bool
  animWidgetExists : Bool
  animWidgetValue : Bool
  openTEWidgetExists : Bool
  openTEWidgetValue : Bool
  attachVar : Int
  animVar : Int
  openTEVar : Int
  deriving Repr, DecidableEq

/-- The keyword-argument dictionary `getCreateCommandKwargs` builds: a key is
absent (`none`) exactly when the source leaves it out of `args`. -/
structure CreateKwargs where
  attachToCamera : Option Bool
  animClip : Option Bool
  openTimeEditor : Option Bool
  deriving Repr, DecidableEq

/-- The branch `getCreateCommandKwargs` runs once per option: with a widget,
take its value and write it back to the option variable; without one, put
`True` into the dictionary only when the persisted integer is truthy. -/
def resolveOption (widgetExists widgetValue : Bool) (optVar : Int) : Option Bool × Int :=
  if widgetExists then
    if widgetValue then (some true, 1) else (some false, 0)
  else
    if optVar != 0 then (some true, optVar) else (none, optVar)

/-- `getCreateCommandKwargs`: resolve the three options in order and return
the dictionary together with the updated option variables. -/
def getCreateCommandKwargs (s : OptionState) : CreateKwargs × OptionState :=
  let attach := resolveOption s.attachWidgetExists s.attachWidgetValue s.attachVar
  let anim := resolveOption s.animWidgetExists s.animWidgetValue s.animVar
  let openTE := resolveOption s.openTEWidgetExists s.openTEWidgetValue s.openTEVar
  ( { attachToCamera := attach.1, animClip := anim.1, openTimeEditor := openTE.1 },
    { s with attachVar := attach.2, animVar := anim.2, openTEVar := openTE.2 } )

/-- The boolean values `doIt(**kwargs)` actually receives: a key absent from
the dictionary falls back to the `True` default of the `doIt` signature. -/
def resolvedDoItOptions (k : CreateKwargs) : Bool × Bool × Bool :=
  (k.attachToCamera.getD true, k.animClip.getD true, k.openTimeEditor.getD true)

/-- State of the menu registrar: the class attribute `_menuItems` and the
menu-item handles currently registered in the host's main Create menu.
`nextId` numbers the handles the host hands out. -/
structure MenuState where
  menuItems : List String
  registered : List String
  nextId : Nat
  deriving Repr, DecidableEq

/-- The handle `cmds.menuItem` returns for the n-th created item. -/
def menuHandle (n : Nat) : String :=
  "menuItem" ++ toString n

/-- `createMenuItems`: when nothing is tracked, create the Video Reference
item and its option box, register both and append both handles; otherwise
report that the menu item already exists and change nothing. -/
def createMenuItems (s : MenuState) : Bool × MenuState :=
  if s.menuItems.length == 0 then
    let videoReferenceItem := menuHandle s.nextId
    let videoReferenceOptBox := menuHandle (s.nextId + 1)
    (true,
      { menuItems := s.menuItems ++ [videoReferenceItem, videoReferenceOptBox],
        registered := s.registered ++ [videoReferenceItem, videoReferenceOptBox],
        nextId := s.nextId + 2 })
  else (false, s)

/-- `deleteMenuItems`: when something is tracked, `cmds.deleteUI` every
tracked handle and clear the list; otherwise report nothing-to-delete. -/
def deleteMenuItems (s : MenuState) : Bool × MenuState :=
  if s.menuItems.length != 0 then
    (true,
      { s with registered := s.registered.filter (fun h => !(s.menuItems.contains h)),
               menuItems := [] })
  else (false, s)

/-- The two registrar entry points, for reasoning about call sequences. -/
inductive MenuOp where
  | create
  | delete
  deriving Repr, DecidableEq

/-- Run a sequence of registrar calls. -/
def runMenuOps (ops : List MenuOp) (s : MenuState) : MenuState :=
  ops.foldl
    (fun s op =>
      match op with
      | MenuOp.create => (createMenuItems s).2
      | MenuOp.delete => (deleteMenuItems s).2)
    s

/-- `_menuItems = []`: the state before any registrar call. -/
def initialMenuState : MenuState :=
  { menuItems := [], registered := [], nextId := 0 }

end VideoReference

namespace VideoReference

/-- Whether a scene effect is a `setKeyframe` call. -/
def isKeyframe : SceneEffect → Bool
  | SceneEffect.keyframeSet _ _ _ _ _ _ => true
  | _ => false

/-- Whether a scene effect is an `imagePlane` creation. -/
def isPlane : SceneEffect → Bool
  | SceneEffect.imagePlaneCreated _ _ _ _ => true
  | _ => false

/-- Every image plane this effect creates (if any) looks through the camera
named `persp`. -/
def planePersp : SceneEffect → Bool
  | SceneEffect.imagePlaneCreated _ lt _ _ => lt == "persp"
  | _ => true

/-- A scene world with one picked video (1920x1080, 24 frames) in front of the
active camera `cam`, used to exercise the reference-creation flow on concrete
input. -/
def sampleSceneWorld (picked : Option (List String)) (cam : String) : SceneWorld :=
  { pickedVideoPaths := picked
    activeCamera := cam
    cameraVisible := true
    visibilityLocked := false
    visibilityConnected := false
    nearClipAttr := 1
    currentTime := 5
    videoWidth := fun _ => 1920
    videoHeight := fun _ => 1080
    videoFrames := fun _ => 24
    hasTimeEditorTracks := false
    activeComposition := "CompositionA"
    dialogAnswers := []
    transforms := []
    selection := []
    effects := []
    cameraTransform := none
    nearClip := none
    timeEditorComposition := none }

end VideoReference

namespace Installer

/-! Helper lemmas about the installer embedding. -/

theorem pathExists_false_of_subset {fs fs2 : List String} {path : String}
    (hsub : ∀ a ∈ fs2, a ∈ fs) (hp : pathExists fs path = false) :
    pathExists fs2 path = false := by
  by_contra h
  rw [Bool.not_eq_false, pathExists, List.any_eq_true] at h
  obtain ⟨f, hf, hpf⟩ := h
  have : pathExists fs path = true := by
    rw [pathExists, List.any_eq_true]
    exact ⟨f, hsub f hf, hpf⟩
  simp [this] at hp

theorem pathExists_removeEntry_self (fs : List String) (path : String) :
    pathExists (removeEntry fs path) path = false := by
  rw [Bool.eq_false_iff]
  intro h
  rw [pathExists, List.any_eq_true] at h
  obtain ⟨f, hf, hpf⟩ := h
  rw [removeEntry, List.mem_filter] at hf
  have hff : (f == path || isUnderDir path f) = false := by
    simpa using hf.2
  rw [hff] at hpf
  exact Bool.false_ne_true hpf

theorem mem_fs_removeIfExists {w : InstallWorld} {path a : String}
    (h : a ∈ (removeIfExists path w).fs) : a ∈ w.fs := by
  rw [removeIfExists] at h
  split at h
  · exact (List.mem_filter.mp h).1
  · exact h

theorem pathExists_removeIfExists_self (w : InstallWorld) (path : String) :
    pathExists (removeIfExists path w).fs path = false := by
  rw [removeIfExists]
  split
  · exact pathExists_removeEntry_self w.fs path
  · rename_i h
    exact Bool.of_not_eq_true h

theorem pathExists_removeIfExists_false {w : InstallWorld} {path p : String}
    (h : pathExists w.fs p = false) :
    pathExists (removeIfExists path w).fs p = false :=
  pathExists_false_of_subset (fun _ ha => mem_fs_removeIfExists ha) h

/-- After `removeExistingVersion`, neither the destination module directory
nor the destination `.mod` file exists. -/
theorem removeExistingVersion_clears (cfg : InstallerCfg) (w : InstallWorld) :
    pathExists (removeExistingVersion cfg w).fs (defaultModulesPath cfg ++ "/" ++ moduleName) = false
    ∧ pathExists (removeExistingVersion cfg w).fs (defaultModulesPath cfg ++ "/" ++ moduleName ++ ".mod") = false := by
  rw [removeExistingVersion, existingFiles]
  simp only [List.foldl_cons, List.foldl_nil]
  constructor
  · exact pathExists_removeIfExists_false (pathExists_removeIfExists_self w _)
  · exact pathExists_removeIfExists_self _ _

theorem removeIfExists_depInstallOk (path : String) (w : InstallWorld) :
    (removeIfExists path w).depInstallOk = w.depInstallOk := by
  rw [removeIfExists]; split <;> rfl

theorem removeExistingVersion_depInstallOk (cfg : InstallerCfg) (w : InstallWorld) :
    (removeExistingVersion cfg w).depInstallOk = w.depInstallOk := by
  rw [removeExistingVersion, existingFiles]
  simp only [List.foldl_cons, List.foldl_nil]
  rw [removeIfExists_depInstallOk, removeIfExists_depInstallOk]

/-- `createDialog` characterized as an explicit pair: the answer is the head
of the queue (the cancel button when the queue is empty), the world records
the dialog and drops that head. -/
theorem createDialog_eq (m : String) (b : List String) (c : String) (w : InstallWorld) :
    createDialog m b c w =
      (w.dialogAnswers.headD c,
        { w with effects := w.effects ++ [Effect.dialogShown m b],
                 dialogAnswers := w.dialogAnswers.tail }) := by
  rw [createDialog]
  cases w.dialogAnswers <;> rfl

/-- `unloadPlugin` at its default `force=True`, as one explicit update. -/
theorem unloadPlugin_eq (w : InstallWorld) :
    unloadPlugin w =
      { w with effects := w.effects ++ [Effect.newScene, Effect.unloadPlugin moduleName],
               sceneModified := false,
               pluginLoaded := if w.unloadSucceeds then false else w.pluginLoaded } := by
  rw [unloadPlugin]
  simp

theorem setupPlugin_depInstallOk (w : InstallWorld) :
    (setupPlugin w).2.depInstallOk = w.depInstallOk := by
  rw [setupPlugin]
  split
  · simp only [createDialog_eq, unloadPlugin_eq]
    repeat' split
    all_goals rfl
  · rfl

theorem copyOp_depInstallOk (source destEntry : String) (w : InstallWorld) :
    (copyOp source destEntry w).depInstallOk = w.depInstallOk := by
  rw [copyOp]; split <;> rfl

theorem copyInstallationFiles_depInstallOk (cfg : InstallerCfg) (w : InstallWorld) :
    (copyInstallationFiles cfg w).depInstallOk = w.depInstallOk := by
  rw [copyInstallationFiles, copyOp_depInstallOk, copyOp_depInstallOk]

end Installer

namespace Installer

theorem mem_effects_setupPlugin {w : InstallWorld} {e : Effect}
    (h : e ∈ (setupPlugin w).2.effects) :
    e ∈ w.effects ∨ e = Effect.dialogShown saveSceneMsg ["Save", "Don't Save"]
      ∨ e = Effect.sceneSaved ∨ e = Effect.newScene ∨ e = Effect.unloadPlugin moduleName := by
  rw [setupPlugin] at h
  split at h
  · simp only [createDialog_eq, unloadPlugin_eq] at h
    repeat' split at h
    all_goals simp only [List.mem_append, List.mem_cons, List.mem_singleton,
      List.not_mem_nil, or_false] at h
    all_goals tauto
  · left; exact h

theorem mem_effects_removeIfExists {w : InstallWorld} {path : String} {e : Effect}
    (h : e ∈ (removeIfExists path w).effects) :
    e ∈ w.effects ∨ ∃ p, e = Effect.removePath p := by
  rw [removeIfExists] at h
  split at h
  · simp only [List.mem_append, List.mem_singleton] at h
    rcases h with h | h
    · left; exact h
    · right; exact ⟨path, h⟩
  · left; exact h

theorem mem_effects_removeExistingVersion {cfg : InstallerCfg} {w : InstallWorld} {e : Effect}
    (h : e ∈ (removeExistingVersion cfg w).effects) :
    e ∈ w.effects ∨ ∃ p, e = Effect.removePath p := by
  rw [removeExistingVersion, existingFiles] at h
  simp only [List.foldl_cons, List.foldl_nil] at h
  rcases mem_effects_removeIfExists h with h2 | h2
  · exact mem_effects_removeIfExists h2
  · right; exact h2

theorem mem_effects_copyOp {w : InstallWorld} {s d : String} {e : Effect}
    (h : e ∈ (copyOp s d w).effects) :
    e ∈ w.effects ∨ ∃ a b, e = Effect.copyEntry a b := by
  rw [copyOp] at h
  split at h
  · simp only [List.mem_append, List.mem_singleton] at h
    rcases h with h | h
    · left; exact h
    · right; exact ⟨s, d, h⟩
  · left; exact h

theorem mem_effects_copyInstallationFiles {cfg : InstallerCfg} {w : InstallWorld} {e : Effect}
    (h : e ∈ (copyInstallationFiles cfg w).effects) :
    e ∈ w.effects ∨ ∃ a b, e = Effect.copyEntry a b := by
  rw [copyInstallationFiles] at h
  rcases mem_effects_copyOp h with h2 | h2
  · exact mem_effects_copyOp h2
  · right; exact h2

theorem mem_effects_installDependencies {w : InstallWorld} {e : Effect}
    (h : e ∈ (installDependencies w).2.effects) :
    e ∈ w.effects ∨ e = Effect.pipInstall dependencies := by
  rw [installDependencies] at h
  simp only [List.mem_append, List.mem_singleton] at h
  exact h

end Installer

/-- C2: if any manifest file is absent at validation time, `install` aborts
with a failure result and performs no file-system mutation at all: the world
(file system, effect trace, dialog queue) is returned unchanged. -/
theorem install_missingManifestFile_aborts_without_mutation
    (cfg : Installer.InstallerCfg) (w : Installer.InstallWorld) (file : String)
    (hfile : file ∈ Installer.installationFiles cfg)
    (hmiss : Installer.pathExists w.fs file = false) :
    Installer.install cfg w = (false, w) := by
  have hval : Installer.validateInstallationFiles cfg w = false := by
    rw [Installer.validateInstallationFiles, Bool.eq_false_iff]
    intro hall
    rw [List.all_eq_true] at hall
    have hthis := hall file hfile
    rw [hmiss] at hthis
    exact Bool.false_ne_true hthis
  rw [Installer.install, hval]
  simp

/-- Witness for C2: a concrete run with an empty source directory aborts and
mutates nothing. -/
theorem install_missingManifestFile_aborts_without_mutation_witness :
    Installer.install ⟨2023, 3, "/drop", "/maya"⟩ ⟨[], false, false, true, true, [], []⟩
      = (false, ⟨[], false, false, true, true, [], []⟩) :=
  install_missingManifestFile_aborts_without_mutation ⟨2023, 3, "/drop", "/maya"⟩
    ⟨[], false, false, true, true, [], []⟩
    "/drop/videoReference/scripts/videoReference.py" (by decide) (by decide)

/-- C1: when the dependency install fails after the files were copied, the
installer rolls back (neither the destination module directory nor the
destination `.mod` file exists afterwards, not even partially), `install`
returns failure, and neither the restart prompt nor `cmds.quit` happens. -/
theorem install_depFailure_rollback
    (cfg : Installer.InstallerCfg) (w : Installer.InstallWorld) (rest : List String)
    (hpy : Installer.validatePythonVersion cfg = true)
    (hval : Installer.validateInstallationFiles cfg w = true)
    (hans : w.dialogAnswers = "Install" :: rest)
    (hdep : w.depInstallOk = false)
    (heff : w.effects = []) :
    (Installer.install cfg w).1 = false
    ∧ Installer.pathExists (Installer.install cfg w).2.fs
        (Installer.defaultModulesPath cfg ++ "/" ++ Installer.moduleName) = false
    ∧ Installer.pathExists (Installer.install cfg w).2.fs
        (Installer.defaultModulesPath cfg ++ "/" ++ Installer.moduleName ++ ".mod") = false
    ∧ (∀ m, Installer.Effect.dialogShown m ["Restart", "Later"] ∉ (Installer.install cfg w).2.effects)
    ∧ Installer.Effect.quit ∉ (Installer.install cfg w).2.effects := by
  have hdepne : (Installer.dependencies == "") = false := by decide
  have hok : (Installer.copyInstallationFiles cfg (Installer.removeExistingVersion cfg
      (Installer.setupPlugin { w with
        effects := w.effects ++ [Installer.Effect.dialogShown (Installer.installConfirmMsg cfg)
          ["Install", "Cancel"]],
        dialogAnswers := rest }).2)).depInstallOk = false := by
    rw [Installer.copyInstallationFiles_depInstallOk, Installer.removeExistingVersion_depInstallOk,
      Installer.setupPlugin_depInstallOk]
    exact hdep
  have hinstall : Installer.install cfg w =
      (false, Installer.removeExistingVersion cfg
        (Installer.installDependencies (Installer.copyInstallationFiles cfg
          (Installer.removeExistingVersion cfg
            (Installer.setupPlugin { w with
              effects := w.effects ++ [Installer.Effect.dialogShown (Installer.installConfirmMsg cfg)
                ["Install", "Cancel"]],
              dialogAnswers := rest }).2))).2) := by
    rw [Installer.install]
    simp only [hpy, hval, Bool.not_true, Bool.and_false, Bool.false_eq_true, if_false,
      Installer.createDialog_eq, hans, List.headD_cons, List.tail_cons, beq_self_eq_true,
      if_true, hdepne, Bool.not_false, Installer.installDependencies, hok]
  rw [hinstall]
  refine ⟨rfl, (Installer.removeExistingVersion_clears cfg _).1,
    (Installer.removeExistingVersion_clears cfg _).2, ?_, ?_⟩
  · intro m hm
    rcases Installer.mem_effects_removeExistingVersion hm with h | ⟨p, hp⟩
    · rcases Installer.mem_effects_installDependencies h with h | h
      · rcases Installer.mem_effects_copyInstallationFiles h with h | ⟨a, b, hab⟩
        · rcases Installer.mem_effects_removeExistingVersion h with h | ⟨p, hp⟩
          · rcases Installer.mem_effects_setupPlugin h with h | h | h | h | h
            · simp only [heff, List.mem_append, List.mem_singleton, List.not_mem_nil,
                false_or] at h
              simp at h
            · simp at h
            · exact absurd h (by simp)
            · exact absurd h (by simp)
            · exact absurd h (by simp)
          · exact absurd hp (by simp)
        · exact absurd hab (by simp)
      · exact absurd h (by simp)
    · exact absurd hp (by simp)
  · intro hq
    rcases Installer.mem_effects_removeExistingVersion hq with h | ⟨p, hp⟩
    · rcases Installer.mem_effects_installDependencies h with h | h
      · rcases Installer.mem_effects_copyInstallationFiles h with h | ⟨a, b, hab⟩
        · rcases Installer.mem_effects_removeExistingVersion h with h | ⟨p, hp⟩
          · rcases Installer.mem_effects_setupPlugin h with h | h | h | h | h
            · simp only [heff, List.mem_append, List.mem_singleton, List.not_mem_nil,
                false_or] at h
              simp at h
            · simp at h
            · exact absurd h (by simp)
            · exact absurd h (by simp)
            · exact absurd h (by simp)
          · exact absurd hp (by simp)
        · exact absurd hab (by simp)
      · exact absurd h (by simp)
    · exact absurd hp (by simp)

/-- Witness for C1: a concrete run (all manifest files present, user confirms,
pip fails) ends rolled back, failed, with no restart prompt and no quit. -/
theorem install_depFailure_rollback_witness :
    (Installer.install ⟨2023, 3, "/drop", "/maya"⟩
        ⟨["/drop/videoReference/scripts/videoReference.py",
          "/drop/videoReference/scripts/userSetup.py",
          "/drop/videoReference/icons/videoReference.png",
          "/drop/videoReference.mod"], false, false, true, false, ["Install"], []⟩).1 = false
    ∧ Installer.pathExists (Installer.install ⟨2023, 3, "/drop", "/maya"⟩
        ⟨["/drop/videoReference/scripts/videoReference.py",
          "/drop/videoReference/scripts/userSetup.py",
          "/drop/videoReference/icons/videoReference.png",
          "/drop/videoReference.mod"], false, false, true, false, ["Install"], []⟩).2.fs
        (Installer.defaultModulesPath ⟨2023, 3, "/drop", "/maya"⟩ ++ "/" ++ Installer.moduleName) = false
    ∧ Installer.pathExists (Installer.install ⟨2023, 3, "/drop", "/maya"⟩
        ⟨["/drop/videoReference/scripts/videoReference.py",
          "/drop/videoReference/scripts/userSetup.py",
          "/drop/videoReference/icons/videoReference.png",
          "/drop/videoReference.mod"], false, false, true, false, ["Install"], []⟩).2.fs
        (Installer.defaultModulesPath ⟨2023, 3, "/drop", "/maya"⟩ ++ "/" ++ Installer.moduleName ++ ".mod") = false
    ∧ (∀ m, Installer.Effect.dialogShown m ["Restart", "Later"]
        ∉ (Installer.install ⟨2023, 3, "/drop", "/maya"⟩
        ⟨["/drop/videoReference/scripts/videoReference.py",
          "/drop/videoReference/scripts/userSetup.py",
          "/drop/videoReference/icons/videoReference.png",
          "/drop/videoReference.mod"], false, false, true, false, ["Install"], []⟩).2.effects)
    ∧ Installer.Effect.quit ∉ (Installer.install ⟨2023, 3, "/drop", "/maya"⟩
        ⟨["/drop/videoReference/scripts/videoReference.py",
          "/drop/videoReference/scripts/userSetup.py",
          "/drop/videoReference/icons/videoReference.png",
          "/drop/videoReference.mod"], false, false, true, false, ["Install"], []⟩).2.effects :=
  install_depFailure_rollback ⟨2023, 3, "/drop", "/maya"⟩
    ⟨["/drop/videoReference/scripts/videoReference.py",
      "/drop/videoReference/scripts/userSetup.py",
      "/drop/videoReference/icons/videoReference.png",
      "/drop/videoReference.mod"], false, false, true, false, ["Install"], []⟩
    [] (by decide) (by decide) rfl rfl rfl

/-- Counterexample for C3: a concrete install run in which the save-scene
prompt is answered with its cancel button (Later, the second queued answer),
yet the flow does not abort: `install` still returns success and the forced
new scene and the plugin unload are side effects applied after that prompt. -/
theorem promptCancel_saveScene_counterexample :
    (Installer.install ⟨2023, 3, "/drop", "/maya"⟩
        ⟨["/drop/videoReference/scripts/videoReference.py",
          "/drop/videoReference/scripts/userSetup.py",
          "/drop/videoReference/icons/videoReference.png",
          "/drop/videoReference.mod"], true, true, true, true,
          ["Install", "Later", "Later"], []⟩).1 = true
    ∧ Installer.Effect.newScene ∈ (Installer.install ⟨2023, 3, "/drop", "/maya"⟩
        ⟨["/drop/videoReference/scripts/videoReference.py",
          "/drop/videoReference/scripts/userSetup.py",
          "/drop/videoReference/icons/videoReference.png",
          "/drop/videoReference.mod"], true, true, true, true,
          ["Install", "Later", "Later"], []⟩).2.effects
    ∧ Installer.Effect.unloadPlugin Installer.moduleName
        ∈ (Installer.install ⟨2023, 3, "/drop", "/maya"⟩
        ⟨["/drop/videoReference/scripts/videoReference.py",
          "/drop/videoReference/scripts/userSetup.py",
          "/drop/videoReference/icons/videoReference.png",
          "/drop/videoReference.mod"], true, true, true, true,
          ["Install", "Later", "Later"], []⟩).2.effects := by
  decide

/-- C3 (amended): cancelling the install confirmation or the file picker
aborts the whole flow with no side effect after that point (for the install
confirmation, only the dialog display itself is recorded and the file system
is untouched; for the picker, the world is returned unchanged).  The
save-scene prompt is the exception: when the plugin is loaded, the installer
continues regardless of the answer and forces a new scene and a plugin
unload after that prompt. -/
theorem promptCancel_abort_behaviour
    (cfg : Installer.InstallerCfg) (w : Installer.InstallWorld) (ans : String)
    (rest : List String) (sw : VideoReference.SceneWorld)
    (attachCam animClip openTE : Bool) (wp : Installer.InstallWorld)
    (hpy : Installer.validatePythonVersion cfg = true)
    (hval : Installer.validateInstallationFiles cfg w = true)
    (hans : w.dialogAnswers = ans :: rest)
    (hcancel : (ans == "Install") = false)
    (hpick : sw.pickedVideoPaths = none)
    (hloaded : wp.pluginLoaded = true) :
    Installer.install cfg w =
      (false, { w with
        effects := w.effects ++
          [Installer.Effect.dialogShown (Installer.installConfirmMsg cfg) ["Install", "Cancel"]],
        dialogAnswers := rest })
    ∧ VideoReference.doIt sw attachCam animClip openTE = (false, sw)
    ∧ Installer.Effect.newScene ∈ (Installer.setupPlugin wp).2.effects
    ∧ Installer.Effect.unloadPlugin Installer.moduleName ∈ (Installer.setupPlugin wp).2.effects := by
  refine ⟨?_, ?_, ?_, ?_⟩
  · rw [Installer.install]
    simp only [hpy, hval, Bool.not_true, Bool.and_false, Bool.false_eq_true, if_false,
      Installer.createDialog_eq, hans, List.headD_cons, List.tail_cons, hcancel]
  · rw [VideoReference.doIt, hpick]
    rfl
  · rw [Installer.setupPlugin]
    simp only [hloaded, if_true]
    split
    · simp only [Installer.createDialog_eq, Installer.unloadPlugin_eq]
      repeat' split
      all_goals simp
    · simp only [Installer.unloadPlugin_eq]
      repeat' split
      all_goals simp
  · rw [Installer.setupPlugin]
    simp only [hloaded, if_true]
    split
    · simp only [Installer.createDialog_eq, Installer.unloadPlugin_eq]
      repeat' split
      all_goals simp
    · simp only [Installer.unloadPlugin_eq]
      repeat' split
      all_goals simp

/-- Witness for C3 (amended): concrete cancelled install confirmation,
concrete cancelled picker, and a concrete loaded-plugin world. -/
theorem promptCancel_abort_behaviour_witness :
    Installer.install ⟨2023, 3, "/drop", "/maya"⟩
      ⟨["/drop/videoReference/scripts/videoReference.py",
        "/drop/videoReference/scripts/userSetup.py",
        "/drop/videoReference/icons/videoReference.png",
        "/drop/videoReference.mod"], false, false, true, true, ["Cancel"], []⟩ =
      (false,
        ⟨["/drop/videoReference/scripts/videoReference.py",
          "/drop/videoReference/scripts/userSetup.py",
          "/drop/videoReference/icons/videoReference.png",
          "/drop/videoReference.mod"], false, false, true, true, [],
          [Installer.Effect.dialogShown (Installer.installConfirmMsg ⟨2023, 3, "/drop", "/maya"⟩)
            ["Install", "Cancel"]]⟩)
    ∧ VideoReference.doIt (VideoReference.sampleSceneWorld none "persp") true true true =
        (false, VideoReference.sampleSceneWorld none "persp")
    ∧ Installer.Effect.newScene
        ∈ (Installer.setupPlugin ⟨[], true, false, true, true, [], []⟩).2.effects
    ∧ Installer.Effect.unloadPlugin Installer.moduleName
        ∈ (Installer.setupPlugin ⟨[], true, false, true, true, [], []⟩).2.effects :=
  promptCancel_abort_behaviour ⟨2023, 3, "/drop", "/maya"⟩
    ⟨["/drop/videoReference/scripts/videoReference.py",
      "/drop/videoReference/scripts/userSetup.py",
      "/drop/videoReference/icons/videoReference.png",
      "/drop/videoReference.mod"], false, false, true, true, ["Cancel"], []⟩
    "Cancel" [] (VideoReference.sampleSceneWorld none "persp") true true true
    ⟨[], true, false, true, true, [], []⟩
    (by decide) (by decide) rfl (by decide) rfl rfl

namespace VideoReference

theorem createMenuItems_preserves (s : MenuState)
    (h1 : s.menuItems = s.registered)
    (h2 : s.menuItems.length = 0 ∨ s.menuItems.length = 2) :
    (createMenuItems s).2.menuItems = (createMenuItems s).2.registered
    ∧ ((createMenuItems s).2.menuItems.length = 0
        ∨ (createMenuItems s).2.menuItems.length = 2) := by
  rw [createMenuItems]
  split
  · rename_i h
    have hlen : s.menuItems.length = 0 := by simpa using h
    refine ⟨by simp [h1], Or.inr ?_⟩
    simp [hlen]
  · exact ⟨h1, h2⟩

theorem deleteMenuItems_preserves (s : MenuState)
    (h1 : s.menuItems = s.registered)
    (h2 : s.menuItems.length = 0 ∨ s.menuItems.length = 2) :
    (deleteMenuItems s).2.menuItems = (deleteMenuItems s).2.registered
    ∧ ((deleteMenuItems s).2.menuItems.length = 0
        ∨ (deleteMenuItems s).2.menuItems.length = 2) := by
  rw [deleteMenuItems]
  split
  · refine ⟨?_, Or.inl rfl⟩
    have hnil : s.registered.filter (fun h => !(s.menuItems.contains h)) = [] := by
      rw [List.filter_eq_nil_iff]
      intro a ha
      rw [← h1] at ha
      simp [ha]
    simp only [hnil]
  · exact ⟨h1, h2⟩

theorem runMenuOps_invariant (ops : List MenuOp) (s : MenuState)
    (h1 : s.menuItems = s.registered)
    (h2 : s.menuItems.length = 0 ∨ s.menuItems.length = 2) :
    (runMenuOps ops s).menuItems = (runMenuOps ops s).registered
    ∧ ((runMenuOps ops s).menuItems.length = 0
        ∨ (runMenuOps ops s).menuItems.length = 2) := by
  induction ops generalizing s with
  | nil => exact ⟨h1, h2⟩
  | cons op rest ih =>
    have hstep : runMenuOps (op :: rest) s =
        runMenuOps rest (match op with
          | MenuOp.create => (createMenuItems s).2
          | MenuOp.delete => (deleteMenuItems s).2) := by
      rw [runMenuOps, runMenuOps, List.foldl_cons]
    rw [hstep]
    cases op
    · exact ih _ (createMenuItems_preserves s h1 h2).1 (createMenuItems_preserves s h1 h2).2
    · exact ih _ (deleteMenuItems_preserves s h1 h2).1 (deleteMenuItems_preserves s h1 h2).2

/-- After any `createMenuItems` call the tracked list is non-empty. -/
theorem createMenuItems_snd_length (s : MenuState) :
    (createMenuItems s).2.menuItems.length ≠ 0 := by
  rw [createMenuItems]
  split
  · simp
  · rename_i h
    simpa using h

/-- `createMenuItems` on a non-empty tracked list reports already-exists and
changes nothing. -/
theorem createMenuItems_already (t : MenuState) (h : t.menuItems.length ≠ 0) :
    createMenuItems t = (false, t) := by
  rw [createMenuItems]
  rw [if_neg]
  simpa using h

/-- `deleteMenuItems` always leaves the tracked list empty. -/
theorem deleteMenuItems_clears (s : MenuState) :
    (deleteMenuItems s).2.menuItems = [] := by
  rw [deleteMenuItems]
  split
  · rfl
  · rename_i h
    rw [← List.length_eq_zero]
    simpa using h

/-- `deleteMenuItems` on an empty tracked list reports nothing-to-delete and
changes nothing. -/
theorem deleteMenuItems_nothing (t : MenuState) (h : t.menuItems = []) :
    deleteMenuItems t = (false, t) := by
  rw [deleteMenuItems]
  rw [if_neg]
  simp [h]

end VideoReference

/-- C4: a second `createMenuItems` right after a first is a no-op signalling
already-exists (the tracked handle count is unchanged); `deleteMenuItems`
clears the tracked list and deregisters every tracked handle, and a second
`deleteMenuItems` is a no-op reporting nothing-to-delete; over any call
sequence from the initial state the tracked list size is 0 or exactly the
number of currently registered items. -/
theorem menuItems_idempotent_registration :
    (∀ s : VideoReference.MenuState,
      VideoReference.createMenuItems (VideoReference.createMenuItems s).2
        = (false, (VideoReference.createMenuItems s).2))
    ∧ (∀ s : VideoReference.MenuState,
      (VideoReference.deleteMenuItems s).2.menuItems = []
      ∧ ((VideoReference.deleteMenuItems s).2.registered.all
          (fun h => !(s.menuItems.contains h))) = true)
    ∧ (∀ s : VideoReference.MenuState,
      VideoReference.deleteMenuItems (VideoReference.deleteMenuItems s).2
        = (false, (VideoReference.deleteMenuItems s).2))
    ∧ (∀ ops : List VideoReference.MenuOp,
      (VideoReference.runMenuOps ops VideoReference.initialMenuState).menuItems.length = 0
      ∨ (VideoReference.runMenuOps ops VideoReference.initialMenuState).menuItems.length
          = (VideoReference.runMenuOps ops VideoReference.initialMenuState).registered.length) := by
  refine ⟨?_, ?_, ?_, ?_⟩
  · intro s
    exact VideoReference.createMenuItems_already _ (VideoReference.createMenuItems_snd_length s)
  · intro s
    refine ⟨VideoReference.deleteMenuItems_clears s, ?_⟩
    rw [VideoReference.deleteMenuItems]
    split
    · rw [List.all_eq_true]
      intro a ha
      simp only [List.mem_filter] at ha
      exact ha.2
    · rename_i h
      have hnil : s.menuItems = [] := by
        rw [← List.length_eq_zero]
        simpa using h
      rw [List.all_eq_true]
      intro a _
      simp [hnil]
  · intro s
    exact VideoReference.deleteMenuItems_nothing _ (VideoReference.deleteMenuItems_clears s)
  · intro ops
    right
    rw [(VideoReference.runMenuOps_invariant ops VideoReference.initialMenuState rfl
      (Or.inl rfl)).1]

/-- C10: a successful `createMenuItems` appends exactly the two handles (the
Video Reference item and its option box) and succeeds exactly when the
tracked list is empty; `deleteMenuItems` always leaves the tracked list
empty; from the initial state the tracked list length is always 0 or 2. -/
theorem menuItems_length_zero_or_two :
    (∀ s : VideoReference.MenuState,
      (VideoReference.createMenuItems s).2.menuItems =
        (if s.menuItems.isEmpty then
          s.menuItems ++ [VideoReference.menuHandle s.nextId,
            VideoReference.menuHandle (s.nextId + 1)]
        else s.menuItems)
      ∧ (VideoReference.createMenuItems s).1 = s.menuItems.isEmpty)
    ∧ (∀ s : VideoReference.MenuState, (VideoReference.deleteMenuItems s).2.menuItems = [])
    ∧ (∀ ops : List VideoReference.MenuOp,
      (VideoReference.runMenuOps ops VideoReference.initialMenuState).menuItems.length = 0
      ∨ (VideoReference.runMenuOps ops VideoReference.initialMenuState).menuItems.length = 2) := by
  refine ⟨?_, ?_, ?_⟩
  · intro s
    rw [VideoReference.createMenuItems]
    split
    · rename_i h
      have he : s.menuItems.isEmpty = true := by
        rw [List.isEmpty_iff_length_eq_zero]
        simpa using h
      simp [he]
    · rename_i h
      have he : s.menuItems.isEmpty = false := by
        rw [Bool.eq_false_iff]
        intro hc
        rw [List.isEmpty_iff_length_eq_zero] at hc
        exact h (by simpa using hc)
      simp [he]
  · exact VideoReference.deleteMenuItems_clears
  · intro ops
    exact (VideoReference.runMenuOps_invariant ops VideoReference.initialMenuState rfl
      (Or.inl rfl)).2

namespace VideoReference

theorem keyVideoPlane_effects (vs : String) (s e : Rat) (w : SceneWorld) :
    (keyVideoPlane vs s e w).effects = w.effects ++
      [SceneEffect.keyframeSet vs "frameExtension" s s "linear" "linear",
       SceneEffect.keyframeSet vs "frameExtension" e e "linear" "linear"] := by
  rw [keyVideoPlane]
  simp only [List.foldl_cons, List.foldl_nil, List.append_assoc]
  rfl

theorem attachToCamera_effects (vt : String) (w : SceneWorld) (s : Rat) :
    (attachToCamera vt w s).effects =
      w.effects ++ [SceneEffect.parented vt (w.cameraTransform.getD "")] := by
  rw [attachToCamera]
  rfl

theorem createTimeEditorClip_effects (n : String) (s e : Rat) (w : SceneWorld) :
    (createTimeEditorClip n s e w).effects = w.effects ++
      [SceneEffect.timeEditorClipCreated (n ++ "_animClip") s e
        ((w.timeEditorComposition.getD "") ++ ":-1")] := rfl

end VideoReference

/-- C5: `keyVideoPlane` performs exactly two `setKeyframe` calls on the
shape's `frameExtension` attribute, at the given start frame and at the
duration, both with linear in and out tangents; inside `doIt`'s per-file
body the start frame is 1 when a time-editor clip is requested and the
current frame otherwise. -/
theorem keyVideoPlane_two_linear_keyframes
    (videoShape : String) (startFrame : Rat) (duration : Nat)
    (w : VideoReference.SceneWorld) (attachCam : Bool) (currentFrame : Rat) (path : String)
    (hd : 0 < duration)
    (hpath : w.videoFrames path = duration) :
    (VideoReference.keyVideoPlane videoShape startFrame (duration : Rat) w).effects
      = w.effects ++
        [VideoReference.SceneEffect.keyframeSet videoShape "frameExtension"
          startFrame startFrame "linear" "linear",
         VideoReference.SceneEffect.keyframeSet videoShape "frameExtension"
          (duration : Rat) (duration : Rat) "linear" "linear"]
    ∧ (VideoReference.processVideoPath attachCam true currentFrame path w).effects.filter
        VideoReference.isKeyframe
      = w.effects.filter VideoReference.isKeyframe ++
        [VideoReference.SceneEffect.keyframeSet (VideoReference.videoBaseName path ++ "Shape")
          "frameExtension" 1 1 "linear" "linear",
         VideoReference.SceneEffect.keyframeSet (VideoReference.videoBaseName path ++ "Shape")
          "frameExtension" (duration : Rat) (duration : Rat) "linear" "linear"]
    ∧ (VideoReference.processVideoPath attachCam false currentFrame path w).effects.filter
        VideoReference.isKeyframe
      = w.effects.filter VideoReference.isKeyframe ++
        [VideoReference.SceneEffect.keyframeSet (VideoReference.videoBaseName path ++ "Shape")
          "frameExtension" currentFrame currentFrame "linear" "linear",
         VideoReference.SceneEffect.keyframeSet (VideoReference.videoBaseName path ++ "Shape")
          "frameExtension" (duration : Rat) (duration : Rat) "linear" "linear"] := by
  refine ⟨VideoReference.keyVideoPlane_effects videoShape startFrame (duration : Rat) w, ?_, ?_⟩
  · rw [VideoReference.processVideoPath]
    simp only [VideoReference.createVideoPlane, if_true]
    split
    · simp [VideoReference.keyVideoPlane_effects, VideoReference.attachToCamera_effects,
        VideoReference.createTimeEditorClip_effects, VideoReference.isKeyframe,
        List.filter_append, hpath]
    · simp [VideoReference.keyVideoPlane_effects,
        VideoReference.createTimeEditorClip_effects, VideoReference.isKeyframe,
        List.filter_append, hpath]
  · rw [VideoReference.processVideoPath]
    simp only [VideoReference.createVideoPlane, Bool.false_eq_true, if_false]
    split
    · simp [VideoReference.keyVideoPlane_effects, VideoReference.attachToCamera_effects,
        VideoReference.isKeyframe, List.filter_append, hpath]
    · simp [VideoReference.keyVideoPlane_effects, VideoReference.isKeyframe,
        List.filter_append, hpath]

/-- Witness for C5: a concrete 24-frame video keyed from frame 1 (clip case)
and from the current frame 5 (non-clip case). -/
theorem keyVideoPlane_two_linear_keyframes_witness :
    (VideoReference.keyVideoPlane "clipShape" 1 ((24 : Nat) : Rat)
        (VideoReference.sampleSceneWorld (some ["/videos/clip.mp4"]) "persp")).effects
      = (VideoReference.sampleSceneWorld (some ["/videos/clip.mp4"]) "persp").effects ++
        [VideoReference.SceneEffect.keyframeSet "clipShape" "frameExtension"
          1 1 "linear" "linear",
         VideoReference.SceneEffect.keyframeSet "clipShape" "frameExtension"
          ((24 : Nat) : Rat) ((24 : Nat) : Rat) "linear" "linear"]
    ∧ (VideoReference.processVideoPath true true 5 "/videos/clip.mp4"
        (VideoReference.sampleSceneWorld (some ["/videos/clip.mp4"]) "persp")).effects.filter
        VideoReference.isKeyframe
      = (VideoReference.sampleSceneWorld (some ["/videos/clip.mp4"]) "persp").effects.filter
          VideoReference.isKeyframe ++
        [VideoReference.SceneEffect.keyframeSet
          (VideoReference.videoBaseName "/videos/clip.mp4" ++ "Shape")
          "frameExtension" 1 1 "linear" "linear",
         VideoReference.SceneEffect.keyframeSet
          (VideoReference.videoBaseName "/videos/clip.mp4" ++ "Shape")
          "frameExtension" ((24 : Nat) : Rat) ((24 : Nat) : Rat) "linear" "linear"]
    ∧ (VideoReference.processVideoPath true false 5 "/videos/clip.mp4"
        (VideoReference.sampleSceneWorld (some ["/videos/clip.mp4"]) "persp")).effects.filter
        VideoReference.isKeyframe
      = (VideoReference.sampleSceneWorld (some ["/videos/clip.mp4"]) "persp").effects.filter
          VideoReference.isKeyframe ++
        [VideoReference.SceneEffect.keyframeSet
          (VideoReference.videoBaseName "/videos/clip.mp4" ++ "Shape")
          "frameExtension" 5 5 "linear" "linear",
         VideoReference.SceneEffect.keyframeSet
          (VideoReference.videoBaseName "/videos/clip.mp4" ++ "Shape")
          "frameExtension" ((24 : Nat) : Rat) ((24 : Nat) : Rat) "linear" "linear"] :=
  keyVideoPlane_two_linear_keyframes "clipShape" 1 24
    (VideoReference.sampleSceneWorld (some ["/videos/clip.mp4"]) "persp") true 5
    "/videos/clip.mp4" (by decide) rfl

namespace VideoReference

/-- Looking up a key after updating every entry whose key satisfies `c`
applies the update under the lookup, provided the key satisfies `c`. -/
theorem lookup_map_cond (l : List (String × SceneTransform)) (k : String)
    (c : String → Bool) (f : SceneTransform → SceneTransform) (hc : c k = true) :
    (l.map (applyIf c f)).lookup k = (l.lookup k).map f := by
  induction l with
  | nil => rfl
  | cons a rest ih =>
    rcases a with ⟨ak, av⟩
    simp only [List.map_cons]
    by_cases hak : c ak = true
    · rw [applyIf, if_pos hak]
      by_cases hk : (k == ak) = true
      · simp [List.lookup, hk]
      · simp [List.lookup, hk, ih]
    · rw [applyIf, if_neg hak]
      by_cases hk : (k == ak) = true
      · have hkak : k = ak := by simpa using hk
        rw [hkak] at hc
        exact absurd hc hak
      · simp [List.lookup, hk, ih]

end VideoReference

/-- C6: after `attachToCamera`, the video plane is parented under the resolved
camera transform, its local translate and rotate channels are all zero except
a Z offset of exactly `-(nearClip + 1)`, and its scale is uniformly the
default constant 0.0025. -/
theorem attachToCamera_places_plane (vt cam : String) (nc : Rat)
    (w : VideoReference.SceneWorld) (t0 : VideoReference.SceneTransform)
    (hcam : w.cameraTransform = some cam)
    (hnc : w.nearClip = some nc)
    (hsel : w.selection = [vt])
    (ht : w.transforms.lookup vt = some t0) :
    (VideoReference.attachToCamera vt w).transforms.lookup vt = some
      { translate := (0, 0, -(nc + 1)), rotate := (0, 0, 0),
        scaling := (0.0025, 0.0025, 0.0025), parent := cam }
    ∧ VideoReference.SceneEffect.parented vt cam
        ∈ (VideoReference.attachToCamera vt w).effects := by
  constructor
  · rw [VideoReference.attachToCamera]
    simp only [VideoReference.updateTransform, hcam, hnc, hsel, Option.getD_some]
    rw [VideoReference.lookup_map_cond, VideoReference.lookup_map_cond,
      VideoReference.lookup_map_cond, VideoReference.lookup_map_cond, ht]
    · simp
    · simp
    · simp
    · simp
    · simp
  · rw [VideoReference.attachToCamera_effects, hcam]
    simp

/-- Witness for C6: a concrete plane attached to camera `front` with near
clip 1 ends at local translate (0, 0, -2), zero rotation, uniform 0.0025
scale, parented under `front`. -/
theorem attachToCamera_places_plane_witness :
    (VideoReference.attachToCamera "clip"
        { VideoReference.sampleSceneWorld (some ["/videos/clip.mp4"]) "front" with
          transforms := [("clip", VideoReference.newTransform)],
          selection := ["clip"],
          cameraTransform := some "front",
          nearClip := some 1 }).transforms.lookup "clip" = some
      { translate := (0, 0, -((1 : Rat) + 1)), rotate := (0, 0, 0),
        scaling := (0.0025, 0.0025, 0.0025), parent := "front" }
    ∧ VideoReference.SceneEffect.parented "clip" "front"
        ∈ (VideoReference.attachToCamera "clip"
        { VideoReference.sampleSceneWorld (some ["/videos/clip.mp4"]) "front" with
          transforms := [("clip", VideoReference.newTransform)],
          selection := ["clip"],
          cameraTransform := some "front",
          nearClip := some 1 }).effects :=
  attachToCamera_places_plane "clip" "front" 1
    { VideoReference.sampleSceneWorld (some ["/videos/clip.mp4"]) "front" with
      transforms := [("clip", VideoReference.newTransform)],
      selection := ["clip"],
      cameraTransform := some "front",
      nearClip := some 1 }
    VideoReference.newTransform rfl rfl rfl (by decide)

namespace VideoReference

/-- The decimal scale factor of the source, as an exact rational. -/
theorem ratPointOne_mul (n : Nat) : ((n : Rat) * 0.1) = (n : Rat) / 10 := by
  rw [show (0.1 : Rat) = 1 / 10 by norm_num]
  ring

end VideoReference

/-- C7: the image plane created for a video file whose container reports
pixel dimensions (width, height) has size exactly width/10 by height/10,
i.e. width times 0.1 by height times 0.1, and each processed file creates
exactly one plane. -/
theorem plane_size_from_video_dims (attachCam animClip : Bool) (cf : Rat)
    (path : String) (w : VideoReference.SceneWorld) :
    (VideoReference.processVideoPath attachCam animClip cf path w).effects.filter
        VideoReference.isPlane
      = w.effects.filter VideoReference.isPlane ++
        [VideoReference.SceneEffect.imagePlaneCreated (VideoReference.videoBaseName path)
          "persp" ((w.videoWidth path : Rat) / 10) ((w.videoHeight path : Rat) / 10)] := by
  rw [VideoReference.processVideoPath]
  simp only [VideoReference.createVideoPlane, VideoReference.ratPointOne_mul]
  repeat' split
  all_goals simp [VideoReference.keyVideoPlane_effects, VideoReference.attachToCamera_effects,
    VideoReference.createTimeEditorClip_effects, VideoReference.isPlane, List.filter_append]

namespace VideoReference

theorem mem_effects_processVideoPath {a b : Bool} {cf : Rat} {path : String}
    {w : SceneWorld} {e : SceneEffect}
    (h : e ∈ (processVideoPath a b cf path w).effects) :
    e ∈ w.effects ∨ planePersp e = true := by
  rw [processVideoPath] at h
  simp only [createVideoPlane] at h
  repeat' split at h
  all_goals
    simp only [keyVideoPlane_effects, attachToCamera_effects, createTimeEditorClip_effects,
      List.append_assoc] at h
  all_goals rw [List.mem_append] at h
  all_goals rcases h with h | h
  all_goals try exact Or.inl h
  all_goals exact Or.inr (List.all_eq_true.mp (by simp [planePersp]) e h)

theorem mem_effects_foldl_process {a b : Bool} {cf : Rat} {paths : List String}
    {w : SceneWorld} {e : SceneEffect}
    (h : e ∈ (paths.foldl (fun w path => processVideoPath a b cf path w) w).effects) :
    e ∈ w.effects ∨ planePersp e = true := by
  induction paths generalizing w with
  | nil => exact Or.inl h
  | cons p rest ih =>
    rw [List.foldl_cons] at h
    rcases ih h with h2 | h2
    · exact mem_effects_processVideoPath h2
    · exact Or.inr h2

theorem mem_effects_setupCamera {w : SceneWorld} {e : SceneEffect}
    (h : e ∈ (setupCamera w).effects) :
    e ∈ w.effects ∨ planePersp e = true := by
  rw [setupCamera, unhideCamera] at h
  rcases hda : w.dialogAnswers with _ | ⟨ans, rest⟩
  all_goals try simp only [hda] at h
  all_goals repeat' split at h
  all_goals try exact Or.inl h
  all_goals simp only [List.append_assoc] at h
  all_goals rw [List.mem_append] at h
  all_goals rcases h with h | h
  all_goals try exact Or.inl h
  all_goals exact Or.inr (List.all_eq_true.mp (by simp [planePersp]) e h)

theorem mem_effects_setupTimeEditor {w : SceneWorld} {e : SceneEffect}
    (h : e ∈ (setupTimeEditor w).effects) :
    e ∈ w.effects ∨ planePersp e = true := by
  rw [setupTimeEditor] at h
  split at h
  · simp only [List.mem_append, List.mem_singleton] at h
    rcases h with h | h
    · exact Or.inl h
    · subst h
      exact Or.inr rfl
  · exact Or.inl h

end VideoReference

/-- Counterexample for C8: with the active viewport camera named `front`,
`setupCamera` resolves `front` into `_cameraTransform`, yet the image plane
created during reference creation looks through the hard-coded camera
`persp`, not the resolved one. -/
theorem plane_lookThrough_counterexample :
    (VideoReference.setupCamera
        (VideoReference.sampleSceneWorld (some ["/videos/clip.mp4"]) "front")).cameraTransform
      = some "front"
    ∧ (VideoReference.createVideoPlane "clip" "/videos/clip.mp4" 1920 1080 24
        (VideoReference.setupCamera
          (VideoReference.sampleSceneWorld
            (some ["/videos/clip.mp4"]) "front"))).2.2.effects.filter VideoReference.isPlane
      = [VideoReference.SceneEffect.imagePlaneCreated "clip" "persp"
          (((1920 : Nat) : Rat) * 0.1) (((1080 : Nat) : Rat) * 0.1)]
    ∧ "persp" ≠ "front" := by
  refine ⟨rfl, rfl, by decide⟩

/-- C8 (amended): every image plane created during reference creation is
configured to look through the camera named `persp`, which is hard-coded in
`createVideoPlane`; it coincides with the camera resolved by `setupCamera`
only when that camera is itself named `persp`. -/
theorem doIt_planes_look_through_persp
    (w : VideoReference.SceneWorld) (a b c : Bool) (nm lt : String) (wd ht : Rat)
    (hmem : VideoReference.SceneEffect.imagePlaneCreated nm lt wd ht
      ∈ (VideoReference.doIt w a b c).2.effects)
    (hnew : VideoReference.SceneEffect.imagePlaneCreated nm lt wd ht ∉ w.effects) :
    lt = "persp" := by
  have hpp : VideoReference.planePersp
      (VideoReference.SceneEffect.imagePlaneCreated nm lt wd ht) = true → lt = "persp" := by
    intro hp
    rw [VideoReference.planePersp] at hp
    exact eq_of_beq hp
  rw [VideoReference.doIt] at hmem
  split at hmem
  · exact absurd hmem hnew
  · simp only [List.mem_append, List.mem_singleton] at hmem
    rcases hmem with hmem | hmem
    · rcases VideoReference.mem_effects_foldl_process hmem with h1 | h1
      · split at h1
        · split at h1
          · simp only [List.mem_append, List.mem_singleton] at h1
            rcases h1 with h1 | h1
            · rcases VideoReference.mem_effects_setupTimeEditor h1 with h2 | h2
              · rcases VideoReference.mem_effects_setupCamera h2 with h3 | h3
                · exact absurd h3 hnew
                · exact hpp h3
              · exact hpp h2
            · exact absurd h1 (by simp)
          · rcases VideoReference.mem_effects_setupTimeEditor h1 with h2 | h2
            · rcases VideoReference.mem_effects_setupCamera h2 with h3 | h3
              · exact absurd h3 hnew
              · exact hpp h3
            · exact hpp h2
        · rcases VideoReference.mem_effects_setupCamera h1 with h3 | h3
          · exact absurd h3 hnew
          · exact hpp h3
      · exact hpp h1
    · exact absurd hmem (by simp)

/-- Witness for C8 (amended): the concrete plane created above does look
through `persp`. -/
theorem doIt_planes_look_through_persp_witness :
    VideoReference.SceneEffect.imagePlaneCreated
        (VideoReference.videoBaseName "/videos/clip.mp4") "persp"
        (((1920 : Nat) : Rat) * 0.1) (((1080 : Nat) : Rat) * 0.1)
      ∈ (VideoReference.doIt
        (VideoReference.sampleSceneWorld (some ["/videos/clip.mp4"]) "front")).2.effects
    ∧ VideoReference.SceneEffect.imagePlaneCreated
        (VideoReference.videoBaseName "/videos/clip.mp4") "persp"
        (((1920 : Nat) : Rat) * 0.1) (((1080 : Nat) : Rat) * 0.1)
      ∉ (VideoReference.sampleSceneWorld (some ["/videos/clip.mp4"]) "front").effects
    ∧ "persp" = "persp" :=
  ⟨List.Mem.tail _ (List.Mem.tail _ (List.Mem.head _)), by simp [VideoReference.sampleSceneWorld],
    doIt_planes_look_through_persp
      (VideoReference.sampleSceneWorld (some ["/videos/clip.mp4"]) "front") true true true
      (VideoReference.videoBaseName "/videos/clip.mp4") "persp"
      (((1920 : Nat) : Rat) * 0.1) (((1080 : Nat) : Rat) * 0.1)
      (List.Mem.tail _ (List.Mem.tail _ (List.Mem.head _)))
      (by simp [VideoReference.sampleSceneWorld])⟩

/-- Counterexample for C9: with no UI present and the persisted variable
falsy (0), `getCreateCommandKwargs` omits the key entirely, so `doIt`
receives its default `True` - not the persisted boolean value `False`. -/
theorem optionResolution_counterexample :
    (VideoReference.getCreateCommandKwargs
        ⟨false, false, false, false, false, false, 0, 0, 0⟩).1.attachToCamera = none
    ∧ (VideoReference.resolvedDoItOptions (VideoReference.getCreateCommandKwargs
        ⟨false, false, false, false, false, false, 0, 0, 0⟩).1).1 = true
    ∧ ((0 : Int) != 0) = false := by
  decide

/-- C9 (amended): with a checkbox present, the option is resolved from the
UI value and that value is written back to the persisted variable; with no
UI present, the option is put into the dictionary (as `True`) only when the
persisted integer is truthy and is omitted otherwise, the variable is not
written back, and the value `doIt` receives is therefore always `True` in
the no-UI case - it equals the persisted boolean only when that boolean is
true. -/
theorem option_resolution (s : VideoReference.OptionState) :
    (s.attachWidgetExists = true →
      (VideoReference.getCreateCommandKwargs s).1.attachToCamera = some s.attachWidgetValue
      ∧ (VideoReference.getCreateCommandKwargs s).2.attachVar
          = (if s.attachWidgetValue = true then 1 else 0))
    ∧ (s.animWidgetExists = true →
      (VideoReference.getCreateCommandKwargs s).1.animClip = some s.animWidgetValue
      ∧ (VideoReference.getCreateCommandKwargs s).2.animVar
          = (if s.animWidgetValue = true then 1 else 0))
    ∧ (s.openTEWidgetExists = true →
      (VideoReference.getCreateCommandKwargs s).1.openTimeEditor = some s.openTEWidgetValue
      ∧ (VideoReference.getCreateCommandKwargs s).2.openTEVar
          = (if s.openTEWidgetValue = true then 1 else 0))
    ∧ (s.attachWidgetExists = false →
      (VideoReference.getCreateCommandKwargs s).1.attachToCamera
          = (if (s.attachVar != 0) = true then some true else none)
      ∧ (VideoReference.resolvedDoItOptions (VideoReference.getCreateCommandKwargs s).1).1 = true
      ∧ (VideoReference.getCreateCommandKwargs s).2.attachVar = s.attachVar)
    ∧ (s.animWidgetExists = false →
      (VideoReference.getCreateCommandKwargs s).1.animClip
          = (if (s.animVar != 0) = true then some true else none)
      ∧ (VideoReference.resolvedDoItOptions (VideoReference.getCreateCommandKwargs s).1).2.1 = true
      ∧ (VideoReference.getCreateCommandKwargs s).2.animVar = s.animVar)
    ∧ (s.openTEWidgetExists = false →
      (VideoReference.getCreateCommandKwargs s).1.openTimeEditor
          = (if (s.openTEVar != 0) = true then some true else none)
      ∧ (VideoReference.resolvedDoItOptions (VideoReference.getCreateCommandKwargs s).1).2.2 = true
      ∧ (VideoReference.getCreateCommandKwargs s).2.openTEVar = s.openTEVar) := by
  refine ⟨?_, ?_, ?_, ?_, ?_, ?_⟩
  all_goals intro h
  all_goals simp only [VideoReference.getCreateCommandKwargs, VideoReference.resolveOption,
    VideoReference.resolvedDoItOptions, h]
  all_goals repeat' split
  all_goals simp_all

/-- Witness for C9 (amended): one state with all three checkboxes present
(values false, true, true) and one state with no UI and persisted integers
7, 0, 3. -/
theorem option_resolution_witness :
    ((VideoReference.getCreateCommandKwargs
        ⟨true, false, true, true, true, true, 5, 0, 0⟩).1.attachToCamera = some false
      ∧ (VideoReference.getCreateCommandKwargs
        ⟨true, false, true, true, true, true, 5, 0, 0⟩).2.attachVar
          = (if false = true then 1 else 0))
    ∧ ((VideoReference.getCreateCommandKwargs
        ⟨true, false, true, true, true, true, 5, 0, 0⟩).1.animClip = some true
      ∧ (VideoReference.getCreateCommandKwargs
        ⟨true, false, true, true, true, true, 5, 0, 0⟩).2.animVar
          = (if true = true then 1 else 0))
    ∧ ((VideoReference.getCreateCommandKwargs
        ⟨true, false, true, true, true, true, 5, 0, 0⟩).1.openTimeEditor = some true
      ∧ (VideoReference.getCreateCommandKwargs
        ⟨true, false, true, true, true, true, 5, 0, 0⟩).2.openTEVar
          = (if true = true then 1 else 0))
    ∧ ((VideoReference.getCreateCommandKwargs
        ⟨false, false, false, false, false, false, 7, 0, 3⟩).1.attachToCamera
          = (if ((7 : Int) != 0) = true then some true else none)
      ∧ (VideoReference.resolvedDoItOptions (VideoReference.getCreateCommandKwargs
        ⟨false, false, false, false, false, false, 7, 0, 3⟩).1).1 = true
      ∧ (VideoReference.getCreateCommandKwargs
        ⟨false, false, false, false, false, false, 7, 0, 3⟩).2.attachVar = 7)
    ∧ ((VideoReference.getCreateCommandKwargs
        ⟨false, false, false, false, false, false, 7, 0, 3⟩).1.animClip
          = (if ((0 : Int) != 0) = true then some true else none)
      ∧ (VideoReference.resolvedDoItOptions (VideoReference.getCreateCommandKwargs
        ⟨false, false, false, false, false, false, 7, 0, 3⟩).1).2.1 = true
      ∧ (VideoReference.getCreateCommandKwargs
        ⟨false, false, false, false, false, false, 7, 0, 3⟩).2.animVar = 0)
    ∧ ((VideoReference.getCreateCommandKwargs
        ⟨false, false, false, false, false, false, 7, 0, 3⟩).1.openTimeEditor
          = (if ((3 : Int) != 0) = true then some true else none)
      ∧ (VideoReference.resolvedDoItOptions (VideoReference.getCreateCommandKwargs
        ⟨false, false, false, false, false, false, 7, 0, 3⟩).1).2.2 = true
      ∧ (VideoReference.getCreateCommandKwargs
        ⟨false, false, false, false, false, false, 7, 0, 3⟩).2.openTEVar = 3) :=
  ⟨(option_resolution ⟨true, false, true, true, true, true, 5, 0, 0⟩).1 rfl,
   (option_resolution ⟨true, false, true, true, true, true, 5, 0, 0⟩).2.1 rfl,
   (option_resolution ⟨true, false, true, true, true, true, 5, 0, 0⟩).2.2.1 rfl,
   (option_resolution ⟨false, false, false, false, false, false, 7, 0, 3⟩).2.2.2.1 rfl,
   (option_resolution ⟨false, false, false, false, false, false, 7, 0, 3⟩).2.2.2.2.1 rfl,
   (option_resolution ⟨false, false, false, false, false, false, 7, 0, 3⟩).2.2.2.2.2 rfl⟩
